import Mathlib

/-!
Shallow embedding of the order/inventory/cart core of the `@withvlibe/base-sdk`
e-commerce module (`VlibeBaseEcommerce`, backed by `VlibeBaseDatabase`).

The remote record store is modelled as an explicit in-memory state `DB` holding
the four collections the core uses (`products`, `orders`, `order_items`,
`carts`).  Every method that issues CRUD calls is translated into a function
taking and returning a `DB`; a thrown `Error` becomes `Except.error msg`.
Because a JavaScript exception does not roll back CRUD calls already issued,
every stateful operation returns `Except String α × DB`: the state component is
returned even on error, carrying whatever mutations had been applied before the
throw.

Modelling conventions:
- JavaScript numbers holding money/stock quantities are integers in this code
  base; they are modelled as `Int`.  `Math.round` is modelled exactly over `ℚ`
  (`jsRound`); the float literal `0.08` is modelled as the rational `8/100`
  (the float64 rounding of `0.08` can only diverge from the rational at
  astronomically large subtotals, far beyond any integer the SDK handles).
- `crypto.randomUUID()` is modelled by a deterministic fresh-id counter in the
  state (`freshId`); nothing in the verified claims depends on id randomness.
- `created_at` / `updated_at` ISO timestamp strings are not modelled except for
  the order creation timestamp (`Order.created_at`, as integer Unix
  milliseconds), which the analytics code compares; `new Date()` becomes an
  explicit `now` parameter.  JavaScript `Date` local-time calendar operations
  are modelled in UTC.
- Optional fields never consulted by the verified code paths (description,
  sku, currency, images, category, metadata, billing address, notes,
  payment-method id) are omitted from the records.
-/

namespace VlibeBase

/-- Inventory operation selector: the `'set' | 'increment' | 'decrement'`
union type of `updateInventory`. -/
inductive InvOp where
  | set
  | increment
  | decrement
deriving Repr, DecidableEq

/-- Product record (collection `products`); fields not consulted by the
verified code paths are omitted. -/
structure Product where
  id : String
  name : String
  price : Int
  stock : Int
  isActive : Bool
deriving Repr, DecidableEq

/-- Cart line as exposed to callers: `{ productId, quantity }`. -/
structure CartItem where
  productId : String
  quantity : Int
deriving Repr, DecidableEq

/-- Persisted cart row (collection `carts`). -/
structure CartRow where
  id : String
  userId : String
  productId : String
  quantity : Int
deriving Repr, DecidableEq

/-- Order line snapshot embedded in an order. -/
structure OrderItem where
  productId : String
  name : String
  quantity : Int
  price : Int
deriving Repr, DecidableEq

/-- Order status union type. -/
inductive OrderStatus where
  | pending
  | processing
  | shipped
  | delivered
  | cancelled
deriving Repr, DecidableEq

/-- Shipping address. -/
structure Address where
  line1 : String
  line2 : Option String
  city : String
  state : String
  postalCode : String
  country : String
deriving Repr, DecidableEq

/-- Order record (collection `orders`).  `created_at` is modelled as integer
Unix milliseconds (the source stores an ISO string and re-parses it with
`new Date` for comparisons). -/
structure Order where
  id : String
  userId : String
  status : OrderStatus
  items : List OrderItem
  subtotal : Int
  tax : Int
  shipping : Int
  total : Int
  shippingAddress : Address
  created_at : Int
deriving Repr, DecidableEq

/-- Persisted order-line row (collection `order_items`). -/
structure OrderItemRow where
  id : String
  orderId : String
  productId : String
  name : String
  quantity : Int
  price : Int
  lineTotal : Int
deriving Repr, DecidableEq

/-- The record-store state: the four collections used by the e-commerce core,
plus the fresh-id counter standing in for `crypto.randomUUID()`. -/
structure DB where
  products : List Product
  orders : List Order
  orderItems : List OrderItemRow
  carts : List CartRow
  nextId : Nat
deriving Repr, DecidableEq

/-- Draw a fresh record id (stand-in for `crypto.randomUUID()`). -/
def freshId (db : DB) : String × DB :=
  ("id-" ++ toString db.nextId, { db with nextId := db.nextId + 1 })

/-- Source `getProduct` / `db.get('products', id)`: first record with the
given id, if any. -/
def getProductRec (db : DB) (productId : String) : Option Product :=
  db.products.find? (fun p => p.id == productId)

/-- Source `db.update('products', id, doc)`: replace the record stored under
the given id by the given document. -/
def putProduct (db : DB) (productId : String) (p : Product) : DB :=
  { db with products := db.products.map (fun q => if q.id == productId then p else q) }

/-- Source `updateProduct(productId, { stock })`, the only `updateProduct`
call shape on the verified paths: loads the product (not-found error if
absent), merges the stock patch, persists it (`updated_at` refresh not
modelled). -/
def updateProductStock (db : DB) (productId : String) (newStock : Int) :
    Except String Product × DB :=
  match getProductRec db productId with
  | none => (.error ("Product not found: " ++ productId), db)
  | some existing =>
    let updated := { existing with stock := newStock }
    (.ok updated, putProduct db productId updated)

/-- Source `updateInventory(productId, quantity, operation)`. -/
def updateInventory (db : DB) (productId : String) (quantity : Int) (op : InvOp) :
    Except String Product × DB :=
  match getProductRec db productId with
  | none => (.error ("Product not found: " ++ productId), db)
  | some product =>
    match op with
    | .set => updateProductStock db productId quantity
    | .increment => updateProductStock db productId (product.stock + quantity)
    | .decrement =>
      let newStock := product.stock - quantity
      if newStock < 0 then
        (.error ("Insufficient stock for product " ++ productId ++ ". Available: " ++
          toString product.stock ++ ", requested: " ++ toString quantity), db)
      else
        updateProductStock db productId newStock

/-- An entry of the `bulkUpdateInventory` argument list. -/
structure InvUpdate where
  productId : String
  quantity : Int
  operation : InvOp
deriving Repr, DecidableEq

/-- Source `bulkUpdateInventory(updates)`: applies `updateInventory` per entry
in list order; the first thrown error propagates, leaving the mutations of the
earlier entries applied. -/
def bulkUpdateInventory (db : DB) (updates : List InvUpdate) :
    Except String (List Product) × DB :=
  match updates with
  | [] => (.ok [], db)
  | u :: rest =>
    match updateInventory db u.productId u.quantity u.operation with
    | (.error e, db1) => (.error e, db1)
    | (.ok p, db1) =>
      match bulkUpdateInventory db1 rest with
      | (.error e, db2) => (.error e, db2)
      | (.ok ps, db2) => (.ok (p :: ps), db2)

/-- One element of `OrderCalculation.items`. -/
structure CalcItem where
  productId : String
  name : String
  price : Int
  quantity : Int
  lineTotal : Int
  inStock : Bool
deriving Repr, DecidableEq

/-- Return value of `calculateOrderTotal`. -/
structure OrderCalculation where
  subtotal : Int
  tax : Int
  shipping : Int
  total : Int
  items : List CalcItem
deriving Repr, DecidableEq

/-- JavaScript `Math.round`: round half towards positive infinity,
i.e. `⌊x + 1/2⌋`. -/
def jsRound (q : ℚ) : Int := ⌊q + 1 / 2⌋

/-- The per-line loop of `calculateOrderTotal`: resolves each line against the
product store (not-found error aborts), recording price/name snapshot,
`lineTotal = price * quantity` and `inStock = stock ≥ quantity`. -/
def calcLines (db : DB) (items : List CartItem) : Except String (List CalcItem) :=
  match items with
  | [] => .ok []
  | item :: rest =>
    match getProductRec db item.productId with
    | none => .error ("Product not found: " ++ item.productId)
    | some product =>
      match calcLines db rest with
      | .error e => .error e
      | .ok cs =>
        .ok ({ productId := item.productId
             , name := product.name
             , price := product.price
             , quantity := item.quantity
             , lineTotal := product.price * item.quantity
             , inStock := decide (item.quantity ≤ product.stock) } :: cs)

/-- Source `calculateOrderTotal(items)`: resolves every line, then fails with
the aggregate out-of-stock error if any line is short, else computes
tax (8 percent, `Math.round`), shipping (free strictly above 5000 minor
units, else 500) and the exact sum `total`.  The method only reads state, so
the returned `DB` is the input state. -/
def calculateOrderTotal (db : DB) (items : List CartItem) :
    Except String OrderCalculation × DB :=
  match calcLines db items with
  | .error e => (.error e, db)
  | .ok calculatedItems =>
    if calculatedItems.all (fun item => item.inStock) then
      let subtotal : Int := (calculatedItems.map (fun item => item.lineTotal)).sum
      let tax := jsRound ((subtotal : ℚ) * (8 / 100))
      let shipping : Int := if subtotal > 5000 then 0 else 500
      ( .ok { subtotal := subtotal
            , tax := tax
            , shipping := shipping
            , total := subtotal + tax + shipping
            , items := calculatedItems }
      , db)
    else
      ( .error ("Items out of stock: " ++ String.intercalate ", "
          (((calculatedItems.filter (fun item => !item.inStock)).map (fun item => item.name))))
      , db)

/-- Argument of `createOrder` (billing address, payment method and notes are
never consulted and are omitted). -/
structure CreateOrderInput where
  userId : String
  items : List CartItem
  shippingAddress : Address
deriving Repr, DecidableEq

/-- The `order_items` insertion loop of `createOrder`: one row per order line,
each with a fresh id and `lineTotal = price * quantity`. -/
def insertOrderItemRows (db : DB) (orderId : String) (items : List OrderItem) : DB :=
  match items with
  | [] => db
  | item :: rest =>
    let (rid, db1) := freshId db
    let row : OrderItemRow :=
      { id := rid
      , orderId := orderId
      , productId := item.productId
      , name := item.name
      , quantity := item.quantity
      , price := item.price
      , lineTotal := item.price * item.quantity }
    insertOrderItemRows { db1 with orderItems := db1.orderItems ++ [row] } orderId rest

/-- Source `createOrder(input)`: totals are computed first (any error there
aborts before any write); then the order record is inserted, then the
`order_items` rows, and only then is inventory decremented line by line via
`bulkUpdateInventory` — an error during the decrements propagates while the
inserted records and the earlier decrements stay applied. -/
def createOrder (db : DB) (now : Int) (input : CreateOrderInput) :
    Except String Order × DB :=
  match calculateOrderTotal db
      (input.items.map (fun item =>
        ({ productId := item.productId, quantity := item.quantity } : CartItem))) with
  | (.error e, db0) => (.error e, db0)
  | (.ok calculation, db0) =>
    let orderItems : List OrderItem := calculation.items.map (fun item =>
      { productId := item.productId
      , name := item.name
      , quantity := item.quantity
      , price := item.price })
    let (oid, db1) := freshId db0
    let order : Order :=
      { id := oid
      , userId := input.userId
      , status := .pending
      , items := orderItems
      , subtotal := calculation.subtotal
      , tax := calculation.tax
      , shipping := calculation.shipping
      , total := calculation.total
      , shippingAddress := input.shippingAddress
      , created_at := now }
    let db2 := { db1 with orders := db1.orders ++ [order] }
    let db3 := insertOrderItemRows db2 oid orderItems
    match bulkUpdateInventory db3 (input.items.map (fun item =>
        ({ productId := item.productId
         , quantity := item.quantity
         , operation := .decrement } : InvUpdate))) with
    | (.error e, db4) => (.error e, db4)
    | (.ok _, db4) => (.ok order, db4)

/-- Source `getCart(userId)`: the user's cart rows projected to
`{ productId, quantity }`. -/
def getCart (db : DB) (userId : String) : List CartItem :=
  (db.carts.filter (fun r => r.userId == userId)).map (fun r =>
    { productId := r.productId, quantity := r.quantity })

/-- Source `addToCart(userId, item)`: if a row for `(userId, productId)`
exists, its quantity is increased by `item.quantity` (document replacement at
the row's id), otherwise a new row is inserted; the full current cart is
returned. -/
def addToCart (db : DB) (userId : String) (item : CartItem) : List CartItem × DB :=
  match db.carts.find? (fun r => r.userId == userId && r.productId == item.productId) with
  | some existing =>
    let db1 := { db with carts := db.carts.map (fun r =>
      if r.id == existing.id then { existing with quantity := existing.quantity + item.quantity } else r) }
    (getCart db1 userId, db1)
  | none =>
    let (rid, db1) := freshId db
    let db2 := { db1 with carts := db1.carts ++
      [{ id := rid, userId := userId, productId := item.productId, quantity := item.quantity }] }
    (getCart db2 userId, db2)

/-- Source `updateCartItem(userId, productId, quantity)`: requires an existing
row (not-found error otherwise); quantity 0 deletes the row, any other
quantity overwrites it; returns the full current cart. -/
def updateCartItem (db : DB) (userId productId : String) (quantity : Int) :
    Except String (List CartItem) × DB :=
  match db.carts.find? (fun r => r.userId == userId && r.productId == productId) with
  | none => (.error ("Cart item not found for product: " ++ productId), db)
  | some item =>
    if quantity = 0 then
      let db1 := { db with carts := db.carts.filter (fun r => r.id != item.id) }
      (.ok (getCart db1 userId), db1)
    else
      let db1 := { db with carts := db.carts.map (fun r =>
        if r.id == item.id then { item with quantity := quantity } else r) }
      (.ok (getCart db1 userId), db1)

/-- Source `clearCart(userId)`: queries the user's rows and deletes each by
id; the net effect is removing every row whose id is among the user's rows. -/
def clearCart (db : DB) (userId : String) : DB :=
  let ids := (db.carts.filter (fun r => r.userId == userId)).map (fun r => r.id)
  { db with carts := db.carts.filter (fun r => !(ids.contains r.id)) }

/-- Source `checkout(userId, shippingAddress, paymentMethodId?)`: reads the
cart, fails on empty cart, delegates to `createOrder`, and clears the cart
only after `createOrder` returned successfully. -/
def checkout (db : DB) (now : Int) (userId : String) (shippingAddress : Address) :
    Except String Order × DB :=
  let cart := getCart db userId
  if cart.length = 0 then
    (.error "Cart is empty", db)
  else
    match createOrder db now
        { userId := userId
        , items := cart.map (fun item =>
            ({ productId := item.productId, quantity := item.quantity } : CartItem))
        , shippingAddress := shippingAddress } with
    | (.error e, db1) => (.error e, db1)
    | (.ok order, db1) => (.ok order, clearCart db1 userId)

/-- Statistics period selector of `getRevenueStats`. -/
inductive Period where
  | day
  | week
  | month
  | year
deriving Repr, DecidableEq

/-- Milliseconds per day. -/
def msPerDay : Int := 86400000

/-- Civil date (1-based month and day) from a day number counted from
1970-01-01, proleptic Gregorian calendar (standard era-based conversion,
matching JavaScript `Date` UTC accessors). -/
def civilFromDays (z : Int) : Int × Int × Int :=
  let z := z + 719468
  let era := z.fdiv 146097
  let doe := z - era * 146097
  let yoe := (doe - doe.fdiv 1460 + doe.fdiv 36524 - doe.fdiv 146096).fdiv 365
  let y := yoe + era * 400
  let doy := doe - (365 * yoe + yoe.fdiv 4 - yoe.fdiv 100)
  let mp := (5 * doy + 2).fdiv 153
  let d := doy - (153 * mp + 2).fdiv 5 + 1
  let m := if mp < 10 then mp + 3 else mp - 9
  (if m ≤ 2 then y + 1 else y, m, d)

/-- Day number counted from 1970-01-01 of a civil date (1-based month and
day), inverse of `civilFromDays`. -/
def daysFromCivil (year m d : Int) : Int :=
  let y := if m ≤ 2 then year - 1 else year
  let era := y.fdiv 400
  let yoe := y - era * 400
  let doy := (153 * (if m > 2 then m - 3 else m + 9) + 2).fdiv 5 + d - 1
  let doe := yoe * 365 + yoe.fdiv 4 - yoe.fdiv 100 + doy
  era * 146097 + doe - 719468

/-- Source private `getPeriodStart(date, period)`, with `Date` modelled as
integer Unix milliseconds in UTC: midnight of the current day, of the current
week's Sunday (`setDate(getDate() - getDay())`), of the first of the current
month (`setDate(1)`), or of January 1st of the current year
(`setMonth(0, 1)`). -/
def getPeriodStart (t : Int) (period : Period) : Int :=
  let day := t.fdiv msPerDay
  match period with
  | .day => msPerDay * day
  | .week => msPerDay * (day - (day + 4).emod 7)
  | .month =>
    match civilFromDays day with
    | (y, m, _) => msPerDay * daysFromCivil y m 1
  | .year =>
    match civilFromDays day with
    | (y, _, _) => msPerDay * daysFromCivil y 1 1

/-- The `trend` component of `RevenueStats` (percentages, two decimals). -/
structure Trend where
  revenue : ℚ
  orders : ℚ
deriving Repr, DecidableEq

/-- Return value of `getRevenueStats`.  The float-valued fields
(`averageOrderValue` and the trends) are modelled over `ℚ`. -/
structure RevenueStats where
  totalRevenue : Int
  totalOrders : Nat
  averageOrderValue : ℚ
  periodStart : Int
  periodEnd : Int
  trend : Trend
deriving Repr, DecidableEq

/-- Source `getRevenueStats(period)`: scans all orders, splits them by
creation timestamp at `periodStart` and `previousPeriodStart` (the latter
computed by applying `getPeriodStart` to `periodStart` itself), and derives
totals, average and rounded percentage trends. -/
def getRevenueStats (db : DB) (now : Int) (period : Period) : RevenueStats :=
  let periodStart := getPeriodStart now period
  let previousPeriodStart := getPeriodStart periodStart period
  let orders := db.orders
  let currentOrders := orders.filter (fun o => decide (periodStart ≤ o.created_at))
  let previousOrders := orders.filter (fun o =>
    decide (previousPeriodStart ≤ o.created_at) && decide (o.created_at < periodStart))
  let totalRevenue : Int := (currentOrders.map (fun o => o.total)).sum
  let previousRevenue : Int := (previousOrders.map (fun o => o.total)).sum
  let totalOrders := currentOrders.length
  let previousOrderCount := previousOrders.length
  let averageOrderValue : ℚ :=
    if totalOrders > 0 then (totalRevenue : ℚ) / (totalOrders : ℚ) else 0
  let revenueTrend : ℚ :=
    if previousRevenue > 0 then
      (((totalRevenue : ℚ) - (previousRevenue : ℚ)) / (previousRevenue : ℚ)) * 100
    else 0
  let ordersTrend : ℚ :=
    if previousOrderCount > 0 then
      (((totalOrders : ℚ) - (previousOrderCount : ℚ)) / (previousOrderCount : ℚ)) * 100
    else 0
  { totalRevenue := totalRevenue
  , totalOrders := totalOrders
  , averageOrderValue := averageOrderValue
  , periodStart := periodStart
  , periodEnd := now
  , trend := { revenue := (jsRound (revenueTrend * 100) : ℚ) / 100
             , orders := (jsRound (ordersTrend * 100) : ℚ) / 100 } }

/-! Concrete fixtures used to instantiate the theorems below. -/

/-- Fixture shipping address. -/
def addr0 : Address :=
  { line1 := "1 Main St", line2 := none, city := "Springfield", state := "OR"
  , postalCode := "97477", country := "US" }

/-- Fixture product: 5 in stock, price 100 minor units. -/
def wProduct : Product :=
  { id := "p1", name := "Widget", price := 100, stock := 5, isActive := true }

/-- Fixture state holding only `wProduct`. -/
def wDB : DB :=
  { products := [wProduct], orders := [], orderItems := [], carts := [], nextId := 0 }

/-- Fixture state holding a single product priced `n` with one unit of
stock (used for the shipping boundary cases). -/
def priceDB (n : Int) : DB :=
  { products := [{ id := "s", name := "Sample", price := n, stock := 1, isActive := true }]
  , orders := [], orderItems := [], carts := [], nextId := 0 }

/-- Fixture order input: three Widgets for user `u1`. -/
def wInput : CreateOrderInput :=
  { userId := "u1"
  , items := [{ productId := "p1", quantity := 3 }]
  , shippingAddress := addr0 }

/-- The order `createOrder wDB 0 wInput` produces. -/
def wOrder : Order :=
  { id := "id-0", userId := "u1", status := .pending
  , items := [{ productId := "p1", name := "Widget", quantity := 3, price := 100 }]
  , subtotal := 300, tax := 24, shipping := 500, total := 824
  , shippingAddress := addr0, created_at := 0 }

/-- The state `createOrder wDB 0 wInput` leaves behind. -/
def wFinal : DB :=
  { products := [{ id := "p1", name := "Widget", price := 100, stock := 2, isActive := true }]
  , orders := [wOrder]
  , orderItems := [{ id := "id-1", orderId := "id-0", productId := "p1", name := "Widget"
                   , quantity := 3, price := 100, lineTotal := 300 }]
  , carts := []
  , nextId := 2 }

/-- The calculation `calculateOrderTotal (priceDB 1000) [one Sample]` returns. -/
def wCalc1000 : OrderCalculation :=
  { subtotal := 1000, tax := 80, shipping := 500, total := 1580
  , items := [{ productId := "s", name := "Sample", price := 1000, quantity := 1
              , lineTotal := 1000, inStock := true }] }

/-- Fixture order input for the partial-failure scenario: two lines of three
Widgets each against a stock of 5 — each line passes the stock check in the
calculation, but the second decrement fails. -/
def inputC4 : CreateOrderInput :=
  { userId := "u1"
  , items := [{ productId := "p1", quantity := 3 }, { productId := "p1", quantity := 3 }]
  , shippingAddress := addr0 }

/-- The calculation `calculateOrderTotal` returns for `inputC4` over `wDB`. -/
def calcC4 : OrderCalculation :=
  { subtotal := 600, tax := 48, shipping := 500, total := 1148
  , items := [{ productId := "p1", name := "Widget", price := 100, quantity := 3
              , lineTotal := 300, inStock := true }
            , { productId := "p1", name := "Widget", price := 100, quantity := 3
              , lineTotal := 300, inStock := true }] }

/-- The order `createOrder wDB 0 inputC4` persists before the decrements. -/
def c4Order : Order :=
  { id := "id-0", userId := "u1", status := .pending
  , items := [{ productId := "p1", name := "Widget", quantity := 3, price := 100 }
            , { productId := "p1", name := "Widget", quantity := 3, price := 100 }]
  , subtotal := 600, tax := 48, shipping := 500, total := 1148
  , shippingAddress := addr0, created_at := 0 }

/-- The state `createOrder wDB 0 inputC4` leaves behind when its second
decrement fails: order and order_items rows persisted, first decrement
applied. -/
def c4Final : DB :=
  { products := [{ id := "p1", name := "Widget", price := 100, stock := 2, isActive := true }]
  , orders := [c4Order]
  , orderItems := [{ id := "id-1", orderId := "id-0", productId := "p1", name := "Widget"
                   , quantity := 3, price := 100, lineTotal := 300 }
                 , { id := "id-2", orderId := "id-0", productId := "p1", name := "Widget"
                   , quantity := 3, price := 100, lineTotal := 300 }]
  , carts := []
  , nextId := 3 }

/-- Fixture soft-deleted product: `isActive = false`, stock 5. -/
def pInactive : Product :=
  { id := "p2", name := "Gadget", price := 100, stock := 5, isActive := false }

/-- Fixture state holding only the soft-deleted product. -/
def dbInactive : DB :=
  { products := [pInactive], orders := [], orderItems := [], carts := [], nextId := 0 }

/-- Fixture empty state. -/
def dbEmpty : DB :=
  { products := [], orders := [], orderItems := [], carts := [], nextId := 0 }

/-- Fixture state with one Widget (stock 5) and a cart asking for 7 of it. -/
def dbC8 : DB :=
  { products := [wProduct], orders := [], orderItems := []
  , carts := [{ id := "c1", userId := "u1", productId := "p1", quantity := 7 }]
  , nextId := 0 }

/-- Fixture order: total 100, created the day before `nowC6` (at
1970-01-01-based day 19999, 1 second past midnight UTC). -/
def oYesterday : Order :=
  { id := "o1", userId := "u9", status := .pending, items := []
  , subtotal := 0, tax := 0, shipping := 0, total := 100
  , shippingAddress := addr0, created_at := 1727913601000 }

/-- Fixture order: total 200, created on day 20000, 1 second past
midnight UTC. -/
def oToday : Order :=
  { oYesterday with id := "o2", total := 200, created_at := 1728000001000 }

/-- Fixture state with one order yesterday (total 100) and one today
(total 200). -/
def dbC6 : DB :=
  { products := [], orders := [oYesterday, oToday], orderItems := [], carts := []
  , nextId := 0 }

/-- The instant 5 seconds past midnight on day 20000
(2024-10-04T00:00:05Z). -/
def nowC6 : Int := 1728000005000

/-! General-purpose lemmas about the record-store primitives. -/

/-- Replacing every key-matching record by a record that itself matches the
key moves `find?` to the replacement. -/
theorem find?_map_same {α : Type} (key : α → Bool) (q : α) (hq : key q = true) :
    ∀ (l : List α) (p : α), l.find? key = some p →
    (l.map (fun r => if key r then q else r)).find? key = some q := by
  intro l
  induction l with
  | nil => intro p h; simp at h
  | cons a t ih =>
    intro p h
    by_cases hk : key a = true
    · simp only [List.map_cons, if_pos hk]
      exact List.find?_cons_of_pos _ hq
    · have hk' : key a = false := by simpa using hk
      rw [List.find?_cons_of_neg _ (by simp [hk'])] at h
      simp only [List.map_cons, if_neg (by simp [hk'] : ¬ key a = true)]
      rw [List.find?_cons_of_neg _ (by simp [hk'])]
      exact ih p h

/-- `updateProductStock` touches only the `products` collection. -/
theorem updateProductStock_preserves (db : DB) (pid : String) (s : Int) :
    ((updateProductStock db pid s).snd).orders = db.orders ∧
    ((updateProductStock db pid s).snd).orderItems = db.orderItems ∧
    ((updateProductStock db pid s).snd).carts = db.carts ∧
    ((updateProductStock db pid s).snd).nextId = db.nextId := by
  unfold updateProductStock putProduct
  cases getProductRec db pid <;> simp

/-- `updateInventory` touches only the `products` collection. -/
theorem updateInventory_preserves (db : DB) (pid : String) (q : Int) (op : InvOp) :
    ((updateInventory db pid q op).snd).orders = db.orders ∧
    ((updateInventory db pid q op).snd).orderItems = db.orderItems ∧
    ((updateInventory db pid q op).snd).carts = db.carts ∧
    ((updateInventory db pid q op).snd).nextId = db.nextId := by
  unfold updateInventory
  cases hp : getProductRec db pid with
  | none => simp
  | some p =>
    cases op with
    | set => simpa using updateProductStock_preserves db pid q
    | increment => simpa using updateProductStock_preserves db pid (p.stock + q)
    | decrement =>
      by_cases hneg : p.stock - q < 0
      · simp [hneg]
      · simpa [hneg] using updateProductStock_preserves db pid (p.stock - q)

/-- On an empty list `bulkUpdateInventory` does nothing. -/
theorem bulkUpdateInventory_nil (db : DB) : bulkUpdateInventory db [] = (.ok [], db) := rfl

/-- If the head entry of a bulk update fails, the whole bulk update returns
that error and the head's (unchanged) state: the remaining entries are never
applied. -/
theorem bulkUpdateInventory_cons_error (db : DB) (u : InvUpdate) (rest : List InvUpdate)
    (e : String) (db1 : DB)
    (hu : updateInventory db u.productId u.quantity u.operation = (.error e, db1)) :
    bulkUpdateInventory db (u :: rest) = (.error e, db1) := by
  unfold bulkUpdateInventory
  rw [hu]

/-- If the head entry of a bulk update succeeds, the bulk update continues
with the remaining entries from the updated state. -/
theorem bulkUpdateInventory_cons_ok (db : DB) (u : InvUpdate) (rest : List InvUpdate)
    (p : Product) (db1 : DB)
    (hu : updateInventory db u.productId u.quantity u.operation = (.ok p, db1)) :
    bulkUpdateInventory db (u :: rest) =
      (match bulkUpdateInventory db1 rest with
       | (.error e, db2) => (.error e, db2)
       | (.ok ps, db2) => (.ok (p :: ps), db2)) := by
  conv_lhs => rw [bulkUpdateInventory]
  rw [hu]

/-- `bulkUpdateInventory` touches only the `products` collection. -/
theorem bulkUpdateInventory_preserves (us : List InvUpdate) : ∀ db : DB,
    ((bulkUpdateInventory db us).snd).orders = db.orders ∧
    ((bulkUpdateInventory db us).snd).orderItems = db.orderItems ∧
    ((bulkUpdateInventory db us).snd).carts = db.carts := by
  induction us with
  | nil => intro db; simp [bulkUpdateInventory]
  | cons u rest ih =>
    intro db
    obtain ⟨h1, h2, h3, _⟩ := updateInventory_preserves db u.productId u.quantity u.operation
    rcases hu : updateInventory db u.productId u.quantity u.operation with ⟨r, db1⟩
    rw [hu] at h1 h2 h3
    rcases r with e | p
    · rw [bulkUpdateInventory_cons_error db u rest e db1 hu]
      exact ⟨h1, h2, h3⟩
    · rw [bulkUpdateInventory_cons_ok db u rest p db1 hu]
      obtain ⟨g1, g2, g3⟩ := ih db1
      rcases hb : bulkUpdateInventory db1 rest with ⟨r2, db2⟩
      rw [hb] at g1 g2 g3
      rcases r2 with e2 | ps <;> exact ⟨g1.trans h1, g2.trans h2, g3.trans h3⟩

/-- Equation form of `bulkUpdateInventory_preserves`. -/
theorem bulkUpdateInventory_preserves_eq (us : List InvUpdate) (db : DB)
    (r : Except String (List Product)) (db' : DB)
    (h : bulkUpdateInventory db us = (r, db')) :
    db'.orders = db.orders ∧ db'.orderItems = db.orderItems ∧ db'.carts = db.carts := by
  have hp := bulkUpdateInventory_preserves us db
  rwa [h] at hp

/-- The `order_items` insertion loop touches only the `order_items`
collection, appending exactly one row per order line. -/
theorem insertOrderItemRows_preserves (items : List OrderItem) : ∀ (db : DB) (oid : String),
    (insertOrderItemRows db oid items).products = db.products ∧
    (insertOrderItemRows db oid items).orders = db.orders ∧
    (insertOrderItemRows db oid items).carts = db.carts ∧
    (insertOrderItemRows db oid items).orderItems.length
      = db.orderItems.length + items.length := by
  induction items with
  | nil => intro db oid; simp [insertOrderItemRows]
  | cons it rest ih =>
    intro db oid
    unfold insertOrderItemRows freshId
    obtain ⟨g1, g2, g3, g4⟩ := ih
      { db with nextId := db.nextId + 1
              , orderItems := db.orderItems ++
        [{ id := "id-" ++ toString db.nextId, orderId := oid, productId := it.productId
         , name := it.name, quantity := it.quantity, price := it.price
         , lineTotal := it.price * it.quantity }] } oid
    refine ⟨g1, g2, g3, ?_⟩
    simp only [g4]
    simp [List.length_append]
    omega

/-- Integer evaluation of the tax rounding: for an integer subtotal `n`,
`Math.round(n * 0.08) = ⌊8n/100 + 1/2⌋ = (16n + 100) / 200` (Euclidean
division; the divisor is positive so this is floor division). -/
theorem taxRound_eval (n : ℤ) : jsRound ((n : ℚ) * (8 / 100)) = (16 * n + 100) / 200 := by
  have h : ((n : ℚ) * (8 / 100) + 1 / 2) = (((16 * n + 100 : ℤ) : ℚ) / ((200 : ℕ) : ℚ)) := by
    push_cast
    ring
  rw [jsRound, h, Rat.floor_intCast_div_natCast]
  norm_num

/-- `Math.round 0 = 0`. -/
theorem jsRound_zero : jsRound 0 = 0 := by
  rw [jsRound]
  norm_num

/-- Anatomy of a successful `calculateOrderTotal`: the state is returned
unchanged, every line was resolved and in stock, the subtotal is the sum of
the line totals, and tax/shipping/total follow the fixed policy. -/
theorem calculateOrderTotal_ok (db : DB) (items : List CartItem)
    (c : OrderCalculation) (db' : DB)
    (h : calculateOrderTotal db items = (.ok c, db')) :
    db' = db ∧
    calcLines db items = .ok c.items ∧
    c.items.all (fun item => item.inStock) = true ∧
    c.subtotal = (c.items.map (fun item => item.lineTotal)).sum ∧
    c.tax = jsRound ((c.subtotal : ℚ) * (8 / 100)) ∧
    c.shipping = (if c.subtotal > 5000 then (0 : Int) else 500) ∧
    c.total = c.subtotal + c.tax + c.shipping := by
  unfold calculateOrderTotal at h
  split at h
  · simp at h
  · next cs heq =>
      split at h
      · next hall =>
          simp only [Prod.mk.injEq, Except.ok.injEq] at h
          obtain ⟨hcalc, hdb⟩ := h
          subst hdb
          subst hcalc
          exact ⟨rfl, heq, hall, rfl, rfl, rfl, rfl⟩
      · simp at h

/-- Anatomy of a successful `createOrder`: the returned order is persisted in
the final state's `orders` collection and its monetary fields are those of the
calculation. -/
theorem createOrder_ok (db : DB) (now : Int) (input : CreateOrderInput)
    (order : Order) (db' : DB)
    (h : createOrder db now input = (.ok order, db')) :
    order ∈ db'.orders ∧
    order.total = order.subtotal + order.tax + order.shipping := by
  unfold createOrder at h
  split at h
  · simp at h
  · next calculation db0 heq =>
      split at h
      next rid db1 heqF =>
        dsimp only [] at h
        split at h
        · simp at h
        · next ps db4 heq2 =>
            simp only [Prod.mk.injEq, Except.ok.injEq] at h
            obtain ⟨horder, hdb⟩ := h
            subst hdb
            subst horder
            refine ⟨?_, ?_⟩
            · obtain ⟨hb1, hb2, hb3⟩ := bulkUpdateInventory_preserves_eq _ _ _ _ heq2
              rw [hb1, (insertOrderItemRows_preserves _ _ _).2.1]
              simp
            · have ht := (calculateOrderTotal_ok _ _ _ _ heq).2.2.2.2.2.2
              simpa using ht

/-- Behaviour of a `decrement` on a present product: fails (state unchanged,
with the insufficient-stock message) exactly when the result would be
negative, else persists exactly `stock - quantity`. -/
theorem updateInventory_decrement_spec (db : DB) (productId : String) (q : Int) (p : Product)
    (hp : getProductRec db productId = some p) :
    (p.stock - q < 0 →
      updateInventory db productId q .decrement =
        (.error ("Insufficient stock for product " ++ productId ++ ". Available: " ++
          toString p.stock ++ ", requested: " ++ toString q), db)) ∧
    (0 ≤ p.stock - q →
      updateInventory db productId q .decrement =
        (.ok { p with stock := p.stock - q },
         putProduct db productId { p with stock := p.stock - q }) ∧
      getProductRec (putProduct db productId { p with stock := p.stock - q }) productId =
        some { p with stock := p.stock - q }) := by
  have hp2 : db.products.find? (fun r => r.id == productId) = some p := hp
  have hkey : (p.id == productId) = true := by simpa using List.find?_some hp2
  constructor
  · intro hneg
    simp only [updateInventory, hp]
    rw [if_pos hneg]
  · intro hpos
    have hneg : ¬ (p.stock - q < 0) := by omega
    constructor
    · simp only [updateInventory, hp]
      rw [if_neg hneg]
      simp only [updateProductStock, hp]
    · exact find?_map_same (fun r => r.id == productId)
        { p with stock := p.stock - q } hkey db.products p hp2

/-- Behaviour of an `increment` on a present product: unconditional
`stock + quantity`, persisted; no floor check. -/
theorem updateInventory_increment_spec (db : DB) (productId : String) (q : Int) (p : Product)
    (hp : getProductRec db productId = some p) :
    updateInventory db productId q .increment =
      (.ok { p with stock := p.stock + q },
       putProduct db productId { p with stock := p.stock + q }) ∧
    getProductRec (putProduct db productId { p with stock := p.stock + q }) productId =
      some { p with stock := p.stock + q } := by
  have hp2 : db.products.find? (fun r => r.id == productId) = some p := hp
  have hkey : (p.id == productId) = true := by simpa using List.find?_some hp2
  constructor
  · simp only [updateInventory, hp, updateProductStock]
  · exact find?_map_same (fun r => r.id == productId)
      { p with stock := p.stock + q } hkey db.products p hp2

/-- Mapping a conditional replacement over a list none of whose elements
satisfy the key leaves the list unchanged. -/
theorem map_if_id {α : Type} (key : α → Bool) (q : α) :
    ∀ l : List α, (∀ r ∈ l, key r = false) →
    l.map (fun r => if key r then q else r) = l := by
  intro l
  induction l with
  | nil => intro _; rfl
  | cons a t ih =>
    intro h
    have ha := h a (List.mem_cons_self _ _)
    simp only [List.map_cons, ha]
    simp only [Bool.false_eq_true, if_false]
    rw [ih (fun r hr => h r (List.mem_cons_of_mem _ hr))]

/-- `calculateOrderTotal` only reads state: the returned state is the input
state. -/
theorem calculateOrderTotal_state (db : DB) (items : List CartItem) :
    (calculateOrderTotal db items).snd = db := by
  unfold calculateOrderTotal
  split
  · rfl
  · split <;> rfl

/-- Inversion of a `createOrder` that failed after a successful calculation:
the failure came from the bulk decrement, run from a post-insert state that
already holds the new order row and its item rows but untouched products. -/
theorem createOrder_decrement_failure (db : DB) (now : Int) (input : CreateOrderInput)
    (calculation : OrderCalculation) (e : String) (db' : DB)
    (hcalc : calculateOrderTotal db (input.items.map (fun item =>
      ({ productId := item.productId, quantity := item.quantity } : CartItem))) =
      (.ok calculation, db))
    (h : createOrder db now input = (.error e, db')) :
    ∃ (order : Order) (dbIns : DB),
      bulkUpdateInventory dbIns (input.items.map (fun item =>
        ({ productId := item.productId, quantity := item.quantity
         , operation := .decrement } : InvUpdate))) = (.error e, db') ∧
      dbIns.orders = db.orders ++ [order] ∧
      dbIns.products = db.products ∧
      dbIns.carts = db.carts ∧
      dbIns.orderItems.length = db.orderItems.length + calculation.items.length ∧
      order.userId = input.userId ∧
      db'.orders = dbIns.orders ∧
      db'.orderItems = dbIns.orderItems ∧
      order ∈ db'.orders := by
  unfold createOrder at h
  split at h
  · next e1 db0 heq =>
      rw [hcalc] at heq
      simp at heq
  · next calculation2 db0 heq =>
      rw [hcalc] at heq
      simp only [Prod.mk.injEq, Except.ok.injEq] at heq
      obtain ⟨hc2, hdb0⟩ := heq
      subst hc2
      subst hdb0
      split at h
      next rid db1 heqF =>
        dsimp only [] at h
        split at h
        · next e2 db4 heq2 =>
            simp only [Prod.mk.injEq, Except.error.injEq] at h
            obtain ⟨he, hdb⟩ := h
            subst he
            subst hdb
            unfold freshId at heqF
            simp only [Prod.mk.injEq] at heqF
            obtain ⟨hrid, hdb1⟩ := heqF
            subst hdb1
            refine ⟨{ id := rid, userId := input.userId, status := .pending
                    , items := calculation.items.map (fun item =>
                        { productId := item.productId, name := item.name
                        , quantity := item.quantity, price := item.price })
                    , subtotal := calculation.subtotal, tax := calculation.tax
                    , shipping := calculation.shipping, total := calculation.total
                    , shippingAddress := input.shippingAddress, created_at := now }
                  , _, heq2, ?_, ?_, ?_, ?_, rfl, ?_, ?_, ?_⟩
            · exact (insertOrderItemRows_preserves _ _ _).2.1
            · exact (insertOrderItemRows_preserves _ _ _).1
            · exact (insertOrderItemRows_preserves _ _ _).2.2.1
            · rw [(insertOrderItemRows_preserves _ _ _).2.2.2]
              simp
            · exact (bulkUpdateInventory_preserves_eq _ _ _ _ heq2).1
            · exact (bulkUpdateInventory_preserves_eq _ _ _ _ heq2).2.1
            · rw [(bulkUpdateInventory_preserves_eq _ _ _ _ heq2).1,
                  (insertOrderItemRows_preserves _ _ _).2.1]
              simp
        · next ps db4 heq2 =>
            simp at h

/-- Inversion of a successful `createOrder`: the final state is the bulk
decrement run from a post-insert state that holds the new order row and has
untouched products. -/
theorem createOrder_success_inv (db : DB) (now : Int) (input : CreateOrderInput)
    (calculation : OrderCalculation) (order : Order) (db' : DB)
    (hcalc : calculateOrderTotal db (input.items.map (fun item =>
      ({ productId := item.productId, quantity := item.quantity } : CartItem))) =
      (.ok calculation, db))
    (h : createOrder db now input = (.ok order, db')) :
    ∃ (dbIns : DB) (ps : List Product),
      bulkUpdateInventory dbIns (input.items.map (fun item =>
        ({ productId := item.productId, quantity := item.quantity
         , operation := .decrement } : InvUpdate))) = (.ok ps, db') ∧
      dbIns.products = db.products ∧
      dbIns.orders = db.orders ++ [order] ∧
      dbIns.carts = db.carts := by
  unfold createOrder at h
  split at h
  · next e1 db0 heq =>
      rw [hcalc] at heq
      simp at heq
  · next calculation2 db0 heq =>
      rw [hcalc] at heq
      simp only [Prod.mk.injEq, Except.ok.injEq] at heq
      obtain ⟨hc2, hdb0⟩ := heq
      subst hc2
      subst hdb0
      split at h
      next rid db1 heqF =>
        dsimp only [] at h
        split at h
        · next e2 db4 heq2 =>
            simp at h
        · next ps db4 heq2 =>
            simp only [Prod.mk.injEq, Except.ok.injEq] at h
            obtain ⟨horder, hdb⟩ := h
            subst hdb
            subst horder
            unfold freshId at heqF
            simp only [Prod.mk.injEq] at heqF
            obtain ⟨hrid, hdb1⟩ := heqF
            subst hdb1
            refine ⟨_, ps, heq2, ?_, ?_, ?_⟩
            · exact (insertOrderItemRows_preserves _ _ _).1
            · exact (insertOrderItemRows_preserves _ _ _).2.1
            · exact (insertOrderItemRows_preserves _ _ _).2.2.1

/-- Every order present in the state after ANY `createOrder` run — whether it
returned successfully or threw during the inventory decrements — is either an
order that was already persisted before the call, or the newly inserted order,
whose monetary fields are copied from the calculation and hence satisfy
`total = subtotal + tax + shipping`. -/
theorem createOrder_persisted_invariant (db : DB) (now : Int) (input : CreateOrderInput)
    (r : Except String Order) (db' : DB)
    (h : createOrder db now input = (r, db')) :
    ∀ order ∈ db'.orders, order ∈ db.orders ∨
      order.total = order.subtotal + order.tax + order.shipping := by
  unfold createOrder at h
  split at h
  · next e db0 heq =>
      have hst : db0 = db := by
        have hs := calculateOrderTotal_state db (input.items.map (fun item =>
          ({ productId := item.productId, quantity := item.quantity } : CartItem)))
        rw [heq] at hs
        exact hs
      simp only [Prod.mk.injEq] at h
      rw [← h.2, hst]
      intro order hord
      exact Or.inl hord
  · next calculation db0 heq =>
      have hst : db0 = db := by
        have hs := calculateOrderTotal_state db (input.items.map (fun item =>
          ({ productId := item.productId, quantity := item.quantity } : CartItem)))
        rw [heq] at hs
        exact hs
      subst hst
      have hinv := (calculateOrderTotal_ok _ _ _ _ heq).2.2.2.2.2.2
      split at h
      next rid db1 heqF =>
        dsimp only [] at h
        unfold freshId at heqF
        simp only [Prod.mk.injEq] at heqF
        obtain ⟨hrid, hdb1⟩ := heqF
        subst hdb1
        split at h
        · next e2 db4 heq2 =>
            simp only [Prod.mk.injEq] at h
            rw [← h.2]
            rw [(bulkUpdateInventory_preserves_eq _ _ _ _ heq2).1,
                (insertOrderItemRows_preserves _ _ _).2.1]
            intro order hord
            rcases List.mem_append.mp hord with hold | hnew
            · exact Or.inl hold
            · right
              have horder := List.mem_singleton.mp hnew
              rw [horder]
              simpa using hinv
        · next ps db4 heq2 =>
            simp only [Prod.mk.injEq] at h
            rw [← h.2]
            rw [(bulkUpdateInventory_preserves_eq _ _ _ _ heq2).1,
                (insertOrderItemRows_preserves _ _ _).2.1]
            intro order hord
            rcases List.mem_append.mp hord with hold | hnew
            · exact Or.inl hold
            · right
              have horder := List.mem_singleton.mp hnew
              rw [horder]
              simpa using hinv

/-! Claim theorems. -/

/-- C1: for every calculation produced by `calculateOrderTotal` and every
order persisted by `createOrder` — on ANY run, including one that throws
during the inventory decrements and leaves the order on record —
`total = subtotal + tax + shipping` holds exactly, with no independent
rounding of the total (orders already on record before the call are exempt,
as the call did not produce them); on a successful run the returned order is
persisted and satisfies the invariant. -/
theorem claim_order_total_invariant :
    (∀ (db : DB) (items : List CartItem) (c : OrderCalculation) (db' : DB),
        calculateOrderTotal db items = (.ok c, db') →
        c.total = c.subtotal + c.tax + c.shipping) ∧
    (∀ (db : DB) (now : Int) (input : CreateOrderInput) (r : Except String Order) (db' : DB),
        createOrder db now input = (r, db') →
        (∀ order ∈ db'.orders, order ∈ db.orders ∨
          order.total = order.subtotal + order.tax + order.shipping) ∧
        (∀ order : Order, r = .ok order →
          order ∈ db'.orders ∧ order.total = order.subtotal + order.tax + order.shipping)) := by
  constructor
  · intro db items c db' h
    exact (calculateOrderTotal_ok db items c db' h).2.2.2.2.2.2
  · intro db now input r db' h
    constructor
    · exact createOrder_persisted_invariant db now input r db' h
    · intro order hr
      rw [hr] at h
      exact createOrder_ok db now input order db' h

/-- Witness for C1: a concrete successful `createOrder` whose persisted order
satisfies the sum invariant, and the concrete decrement-failure run of
`createOrder` (3+3 Widgets against stock 5), whose persisted order also
satisfies it. -/
theorem claim_order_total_invariant_witness :
    (wOrder ∈ wFinal.orders ∧ wOrder.total = wOrder.subtotal + wOrder.tax + wOrder.shipping) ∧
    c4Order.total = c4Order.subtotal + c4Order.tax + c4Order.shipping := by
  have htax24 : jsRound ((300 : ℚ) * (8 / 100)) = 24 := by
    rw [show ((300 : ℚ)) = (((300 : ℤ) : ℚ)) by norm_num, taxRound_eval]
    decide
  have htax48 : jsRound ((600 : ℚ) * (8 / 100)) = 48 := by
    rw [show ((600 : ℚ)) = (((600 : ℤ) : ℚ)) by norm_num, taxRound_eval]
    decide
  constructor
  · refine (claim_order_total_invariant.2 wDB 0 wInput (.ok wOrder) wFinal ?_).2 wOrder rfl
    simp [createOrder, calculateOrderTotal, calcLines, getProductRec, wDB, wInput, wProduct
        , freshId, insertOrderItemRows, bulkUpdateInventory, updateInventory
        , updateProductStock, putProduct, wOrder, wFinal, addr0, htax24]
    decide
  · refine (((claim_order_total_invariant.2 wDB 0 inputC4
      (.error "Insufficient stock for product p1. Available: 2, requested: 3") c4Final ?_).1
      c4Order (by decide)).resolve_left (by decide))
    simp [createOrder, calculateOrderTotal, calcLines, getProductRec, wDB, inputC4, wProduct
        , freshId, insertOrderItemRows, bulkUpdateInventory, updateInventory
        , updateProductStock, putProduct, c4Final, c4Order, addr0, htax48]
    decide

/-- C2: a decrement fails (with the insufficient-stock error naming the
product, its current stock and the requested quantity, and with the state
unchanged) exactly when `stock - quantity < 0`; otherwise it succeeds and the
product record now holds exactly `stock - quantity`. -/
theorem claim_decrement_floor (db : DB) (productId : String) (q : Int) (p : Product)
    (hp : getProductRec db productId = some p) :
    (p.stock - q < 0 →
      updateInventory db productId q .decrement =
        (.error ("Insufficient stock for product " ++ productId ++ ". Available: " ++
          toString p.stock ++ ", requested: " ++ toString q), db)) ∧
    (0 ≤ p.stock - q →
      updateInventory db productId q .decrement =
        (.ok { p with stock := p.stock - q },
         putProduct db productId { p with stock := p.stock - q }) ∧
      getProductRec (putProduct db productId { p with stock := p.stock - q }) productId =
        some { p with stock := p.stock - q }) :=
  updateInventory_decrement_spec db productId q p hp

/-- Witness for C2: decrementing 2 from a stock of 5 succeeds and leaves
exactly 3. -/
theorem claim_decrement_floor_witness :
    updateInventory wDB "p1" 2 .decrement =
      (.ok { wProduct with stock := 3 }, putProduct wDB "p1" { wProduct with stock := 3 }) ∧
    getProductRec (putProduct wDB "p1" { wProduct with stock := 3 }) "p1" =
      some { wProduct with stock := 3 } :=
  (claim_decrement_floor wDB "p1" 2 wProduct rfl).2 (by decide)

/-- C7: tax is `Math.round(subtotal * 0.08)` under exact rational rounding and
shipping is 0 exactly when `subtotal > 5000` (else 500); concretely,
subtotal 1000 gives tax 80, and subtotals 4999 / 5000 / 5001 give shipping
500 / 500 / 0. -/
theorem claim_tax_shipping :
    (∀ (db : DB) (items : List CartItem) (c : OrderCalculation) (db' : DB),
        calculateOrderTotal db items = (.ok c, db') →
        c.tax = jsRound ((c.subtotal : ℚ) * (8 / 100)) ∧
        c.shipping = (if c.subtotal > 5000 then (0 : Int) else 500)) ∧
    jsRound (((1000 : ℤ) : ℚ) * (8 / 100)) = 80 ∧
    (calculateOrderTotal (priceDB 4999) [{ productId := "s", quantity := 1 }]).fst =
      .ok { subtotal := 4999, tax := 400, shipping := 500, total := 5899
          , items := [{ productId := "s", name := "Sample", price := 4999, quantity := 1
                      , lineTotal := 4999, inStock := true }] } ∧
    (calculateOrderTotal (priceDB 5000) [{ productId := "s", quantity := 1 }]).fst =
      .ok { subtotal := 5000, tax := 400, shipping := 500, total := 5900
          , items := [{ productId := "s", name := "Sample", price := 5000, quantity := 1
                      , lineTotal := 5000, inStock := true }] } ∧
    (calculateOrderTotal (priceDB 5001) [{ productId := "s", quantity := 1 }]).fst =
      .ok { subtotal := 5001, tax := 400, shipping := 0, total := 5401
          , items := [{ productId := "s", name := "Sample", price := 5001, quantity := 1
                      , lineTotal := 5001, inStock := true }] } ∧
    (calculateOrderTotal (priceDB 1000) [{ productId := "s", quantity := 1 }]).fst =
      .ok { subtotal := 1000, tax := 80, shipping := 500, total := 1580
          , items := [{ productId := "s", name := "Sample", price := 1000, quantity := 1
                      , lineTotal := 1000, inStock := true }] } := by
  have h4999 : jsRound ((4999 : ℚ) * (8 / 100)) = 400 := by
    rw [show ((4999 : ℚ)) = (((4999 : ℤ) : ℚ)) by norm_num, taxRound_eval]
    decide
  have h5000 : jsRound ((5000 : ℚ) * (8 / 100)) = 400 := by
    rw [show ((5000 : ℚ)) = (((5000 : ℤ) : ℚ)) by norm_num, taxRound_eval]
    decide
  have h5001 : jsRound ((5001 : ℚ) * (8 / 100)) = 400 := by
    rw [show ((5001 : ℚ)) = (((5001 : ℤ) : ℚ)) by norm_num, taxRound_eval]
    decide
  have h1000 : jsRound ((1000 : ℚ) * (8 / 100)) = 80 := by
    rw [show ((1000 : ℚ)) = (((1000 : ℤ) : ℚ)) by norm_num, taxRound_eval]
    decide
  refine ⟨?_, ?_, ?_, ?_, ?_, ?_⟩
  · intro db items c db' h
    have hh := calculateOrderTotal_ok db items c db' h
    exact ⟨hh.2.2.2.2.1, hh.2.2.2.2.2.1⟩
  · rw [taxRound_eval]
    decide
  · simp [calculateOrderTotal, calcLines, getProductRec, priceDB, h4999]
  · simp [calculateOrderTotal, calcLines, getProductRec, priceDB, h5000]
  · simp [calculateOrderTotal, calcLines, getProductRec, priceDB, h5001]
  · simp [calculateOrderTotal, calcLines, getProductRec, priceDB, h1000]

/-- Witness for C7: the general tax/shipping facts instantiated on the
concrete subtotal-1000 calculation. -/
theorem claim_tax_shipping_witness :
    wCalc1000.tax = jsRound ((wCalc1000.subtotal : ℚ) * (8 / 100)) ∧
    wCalc1000.shipping = (if wCalc1000.subtotal > 5000 then (0 : Int) else 500) :=
  claim_tax_shipping.1 (priceDB 1000) [{ productId := "s", quantity := 1 }] wCalc1000
    (priceDB 1000) (by
      have h1000 : jsRound ((1000 : ℚ) * (8 / 100)) = 80 := by
        rw [show ((1000 : ℚ)) = (((1000 : ℤ) : ℚ)) by norm_num, taxRound_eval]
        decide
      simp [calculateOrderTotal, calcLines, getProductRec, priceDB, wCalc1000, h1000])

/-- C5 counterexample: with stock 5, `increment` by -10 succeeds and persists
stock -5 — the code has no floor check on `increment` (only `decrement`
checks), so the claimed failure does not happen. -/
theorem claim_increment_floor_counterexample :
    (updateInventory wDB "p1" (-10) .increment).fst =
      .ok { id := "p1", name := "Widget", price := 100, stock := -5, isActive := true } ∧
    getProductRec (updateInventory wDB "p1" (-10) .increment).snd "p1" =
      some { id := "p1", name := "Widget", price := 100, stock := -5, isActive := true } :=
  ⟨rfl, rfl⟩

/-- C5 (amended): `increment` applies `stock := stock + quantity`
unconditionally — no floor is enforced, so an increment by a negative
quantity can drive stock below zero; only `decrement` enforces the floor. -/
theorem claim_increment_no_floor (db : DB) (productId : String) (q : Int) (p : Product)
    (hp : getProductRec db productId = some p) :
    updateInventory db productId q .increment =
      (.ok { p with stock := p.stock + q },
       putProduct db productId { p with stock := p.stock + q }) ∧
    getProductRec (putProduct db productId { p with stock := p.stock + q }) productId =
      some { p with stock := p.stock + q } :=
  updateInventory_increment_spec db productId q p hp

/-- Witness for the amended C5: the concrete negative increment of the
counterexample, through the general theorem. -/
theorem claim_increment_no_floor_witness :
    updateInventory wDB "p1" (-10) .increment =
      (.ok { wProduct with stock := -5 }, putProduct wDB "p1" { wProduct with stock := -5 }) ∧
    getProductRec (putProduct wDB "p1" { wProduct with stock := -5 }) "p1" =
      some { wProduct with stock := -5 } :=
  claim_increment_no_floor wDB "p1" (-10) wProduct rfl

/-- Any resolved line whose requested quantity exceeds the product's stock
yields a calculated item with `inStock = false`. -/
theorem calcLines_short (db : DB) : ∀ (items : List CartItem) (cs : List CalcItem),
    calcLines db items = .ok cs →
    ∀ item ∈ items, ∀ prod, getProductRec db item.productId = some prod →
    prod.stock < item.quantity →
    ∃ c ∈ cs, c.inStock = false := by
  intro items
  induction items with
  | nil => intro cs hcl item hmem; simp at hmem
  | cons it rest ih =>
    intro cs hcl item hmem prod hprod hqty
    unfold calcLines at hcl
    split at hcl
    · simp at hcl
    · next product heqP =>
        split at hcl
        · simp at hcl
        · next cs2 heqR =>
            simp only [Except.ok.injEq] at hcl
            subst hcl
            rcases List.mem_cons.mp hmem with hhd | htl
            · subst hhd
              rw [heqP] at hprod
              have hpp : product = prod := by injection hprod
              refine ⟨_, List.mem_cons_self _ _, ?_⟩
              simp only [decide_eq_false_iff_not, not_le]
              rw [hpp]
              exact hqty
            · obtain ⟨c, hc, hcf⟩ := ih cs2 heqR item htl prod hprod hqty
              exact ⟨c, List.mem_cons_of_mem _ hc, hcf⟩

/-- When it fails on stock, `calculateOrderTotal` returns the aggregate
out-of-stock error naming every short line, with the state unchanged. -/
theorem calculateOrderTotal_short (db : DB) (items : List CartItem) (cs : List CalcItem)
    (hcl : calcLines db items = .ok cs)
    (hnall : cs.all (fun i => i.inStock) = false) :
    calculateOrderTotal db items =
      (.error ("Items out of stock: " ++ String.intercalate ", "
        ((cs.filter (fun i => !i.inStock)).map (fun i => i.name))), db) := by
  unfold calculateOrderTotal
  rw [hcl]
  simp [hnall]

/-- An error from the total calculation makes `createOrder` return that error
with the calculation's (unchanged) state: nothing was inserted. -/
theorem createOrder_calc_error (db : DB) (now : Int) (input : CreateOrderInput)
    (e : String) (db0 : DB)
    (hc : calculateOrderTotal db
      (input.items.map (fun item =>
        ({ productId := item.productId, quantity := item.quantity } : CartItem))) =
      (.error e, db0)) :
    createOrder db now input = (.error e, db0) := by
  unfold createOrder
  rw [hc]

/-- C3: if some input line requests more than the product's stock,
`createOrder` fails with the aggregate out-of-stock error naming every short
product, and the returned state is the input state itself — no order record,
no order_items record, and no stock mutation. -/
theorem claim_out_of_stock_aborts (db : DB) (now : Int) (input : CreateOrderInput)
    (cs : List CalcItem) (item : CartItem) (prod : Product)
    (hcl : calcLines db (input.items.map (fun it =>
      ({ productId := it.productId, quantity := it.quantity } : CartItem))) = .ok cs)
    (hitem : item ∈ input.items)
    (hprod : getProductRec db item.productId = some prod)
    (hqty : prod.stock < item.quantity) :
    createOrder db now input =
      (.error ("Items out of stock: " ++ String.intercalate ", "
        ((cs.filter (fun i => !i.inStock)).map (fun i => i.name))), db) := by
  have hmem : item ∈ input.items.map (fun it =>
      ({ productId := it.productId, quantity := it.quantity } : CartItem)) := by
    refine List.mem_map.mpr ⟨item, hitem, rfl⟩
  obtain ⟨c, hc, hcf⟩ := calcLines_short db _ cs hcl item hmem prod hprod hqty
  have hnall : cs.all (fun i => i.inStock) = false := by
    rw [List.all_eq_false]
    exact ⟨c, hc, by simp [hcf]⟩
  exact createOrder_calc_error db now input _ db
    (calculateOrderTotal_short db _ cs hcl hnall)

/-- Witness for C3: ordering 7 Widgets with 5 in stock fails with the
aggregate error and leaves the state untouched. -/
theorem claim_out_of_stock_aborts_witness :
    createOrder wDB 0
      { userId := "u1", items := [{ productId := "p1", quantity := 7 }]
      , shippingAddress := addr0 } =
      (.error ("Items out of stock: " ++ String.intercalate ", "
        (([({ productId := "p1", name := "Widget", price := 100, quantity := 7
            , lineTotal := 700, inStock := false } : CalcItem)].filter
            (fun i => !i.inStock)).map (fun i => i.name))), wDB) :=
  claim_out_of_stock_aborts wDB 0
    { userId := "u1", items := [{ productId := "p1", quantity := 7 }]
    , shippingAddress := addr0 }
    [{ productId := "p1", name := "Widget", price := 100, quantity := 7
     , lineTotal := 700, inStock := false }]
    { productId := "p1", quantity := 7 } wProduct
    rfl (by decide) rfl (by decide)

/-- A failed `updateProductStock` leaves the state unchanged. -/
theorem updateProductStock_error_state (db : DB) (pid : String) (s : Int)
    (e : String) (db1 : DB)
    (h : updateProductStock db pid s = (.error e, db1)) : db1 = db := by
  unfold updateProductStock at h
  split at h
  · simp only [Prod.mk.injEq, Except.error.injEq] at h
    exact h.2.symm
  · simp at h

/-- A failed `updateInventory` leaves the state unchanged (the throw happens
before any write). -/
theorem updateInventory_error_state (db : DB) (pid : String) (q : Int) (op : InvOp)
    (e : String) (db1 : DB)
    (h : updateInventory db pid q op = (.error e, db1)) : db1 = db := by
  unfold updateInventory at h
  split at h
  · simp only [Prod.mk.injEq, Except.error.injEq] at h
    exact h.2.symm
  · split at h
    · exact updateProductStock_error_state _ _ _ _ _ h
    · exact updateProductStock_error_state _ _ _ _ _ h
    · dsimp only [] at h
      split at h
      · simp only [Prod.mk.injEq, Except.error.injEq] at h
        exact h.2.symm
      · exact updateProductStock_error_state _ _ _ _ _ h

/-- C4: `bulkUpdateInventory` is sequential in caller order and aborts at the
first failure with the state as of that failure (a failing entry itself has no
effect); and when `createOrder`'s totals succeed but a decrement fails, the
order row is already persisted (appended to `orders`), the `order_items` rows
are already inserted, and the final state is exactly the sequential bulk
decrement run from that post-insert state — earlier decrements stay applied
and the first error is propagated. -/
theorem claim_partial_decrement_persists :
    (∀ (db : DB) (u : InvUpdate) (rest : List InvUpdate) (e : String) (db1 : DB),
        updateInventory db u.productId u.quantity u.operation = (.error e, db1) →
        bulkUpdateInventory db (u :: rest) = (.error e, db1) ∧ db1 = db) ∧
    (∀ (db : DB) (u : InvUpdate) (rest : List InvUpdate) (p : Product) (db1 : DB),
        updateInventory db u.productId u.quantity u.operation = (.ok p, db1) →
        bulkUpdateInventory db (u :: rest) =
          (match bulkUpdateInventory db1 rest with
           | (.error e, db2) => (.error e, db2)
           | (.ok ps, db2) => (.ok (p :: ps), db2))) ∧
    (∀ (db : DB) (now : Int) (input : CreateOrderInput)
        (calculation : OrderCalculation) (e : String) (db' : DB),
        calculateOrderTotal db (input.items.map (fun item =>
          ({ productId := item.productId, quantity := item.quantity } : CartItem))) =
          (.ok calculation, db) →
        createOrder db now input = (.error e, db') →
        ∃ (order : Order) (dbIns : DB),
          bulkUpdateInventory dbIns (input.items.map (fun item =>
            ({ productId := item.productId, quantity := item.quantity
             , operation := .decrement } : InvUpdate))) = (.error e, db') ∧
          dbIns.orders = db.orders ++ [order] ∧
          dbIns.products = db.products ∧
          dbIns.carts = db.carts ∧
          dbIns.orderItems.length = db.orderItems.length + calculation.items.length ∧
          order.userId = input.userId ∧
          db'.orders = dbIns.orders ∧
          db'.orderItems = dbIns.orderItems ∧
          order ∈ db'.orders) := by
  refine ⟨?_, ?_, ?_⟩
  · intro db u rest e db1 hu
    have hs := updateInventory_error_state _ _ _ _ _ _ hu
    exact ⟨bulkUpdateInventory_cons_error db u rest e db1 hu, hs⟩
  · intro db u rest p db1 hu
    exact bulkUpdateInventory_cons_ok db u rest p db1 hu
  · intro db now input calculation e db' hcalc h
    exact createOrder_decrement_failure db now input calculation e db' hcalc h

/-- Witness for C4: ordering 3+3 Widgets with 5 in stock — the calculation
succeeds, the order and its two item rows are persisted, the first decrement
lands (stock 2), the second fails and propagates, leaving the partial state. -/
theorem claim_partial_decrement_persists_witness :
    createOrder wDB 0 inputC4 =
      (.error "Insufficient stock for product p1. Available: 2, requested: 3", c4Final) ∧
    c4Final.orders.length = wDB.orders.length + 1 ∧
    c4Final.orderItems.length = wDB.orderItems.length + 2 ∧
    c4Order ∈ c4Final.orders := by
  have htax : jsRound ((600 : ℚ) * (8 / 100)) = 48 := by
    rw [show ((600 : ℚ)) = (((600 : ℤ) : ℚ)) by norm_num, taxRound_eval]
    decide
  have hrun : createOrder wDB 0 inputC4 =
      (.error "Insufficient stock for product p1. Available: 2, requested: 3", c4Final) := by
    simp [createOrder, calculateOrderTotal, calcLines, getProductRec, wDB, inputC4, wProduct
        , freshId, insertOrderItemRows, bulkUpdateInventory, updateInventory
        , updateProductStock, putProduct, c4Final, c4Order, addr0, htax]
    decide
  have hcalc : calculateOrderTotal wDB (inputC4.items.map (fun item =>
      ({ productId := item.productId, quantity := item.quantity } : CartItem))) =
      (.ok calcC4, wDB) := by
    simp [calculateOrderTotal, calcLines, getProductRec, wDB, inputC4, wProduct, calcC4, htax]
  obtain ⟨order, dbIns, hbulk, hOrd, hProd, hCarts, hLen, hUser, hO, hOI, hMem⟩ :=
    claim_partial_decrement_persists.2.2 wDB 0 inputC4 calcC4 _ c4Final hcalc hrun
  refine ⟨hrun, ?_, ?_, ?_⟩
  · rw [hO, hOrd]
    simp
  · rw [hOI, hLen]
    simp [calcC4]
  · decide

/-- C10: the order path never consults `isActive` — a soft-deleted product
with sufficient stock passes `calculateOrderTotal`, and `createOrder`
persists the order and decrements that product's stock exactly as for an
active product. -/
theorem claim_soft_deleted_orderable (db : DB) (now : Int) (userId : String)
    (addr : Address) (item : CartItem) (p : Product)
    (hp : getProductRec db item.productId = some p)
    (hinactive : p.isActive = false)
    (hstock : item.quantity ≤ p.stock) :
    (∃ c : OrderCalculation, calculateOrderTotal db [item] = (.ok c, db) ∧
       c.subtotal = p.price * item.quantity) ∧
    (∃ (order : Order) (db' : DB),
       createOrder db now { userId := userId, items := [item], shippingAddress := addr } =
         (.ok order, db') ∧
       order ∈ db'.orders ∧
       getProductRec db' item.productId = some { p with stock := p.stock - item.quantity }) := by
  have hin : decide (item.quantity ≤ p.stock) = true := decide_eq_true hstock
  have hcl : calcLines db [item] =
      .ok [{ productId := item.productId, name := p.name, price := p.price
           , quantity := item.quantity, lineTotal := p.price * item.quantity
           , inStock := true }] := by
    simp [calcLines, hp, hin]
  rcases hct : calculateOrderTotal db [item] with ⟨r, db0⟩
  have hdb0 : db0 = db := by
    have hs := calculateOrderTotal_state db [item]
    rw [hct] at hs
    exact hs
  rw [hdb0] at hct
  rcases r with e | c
  · exfalso
    unfold calculateOrderTotal at hct
    rw [hcl] at hct
    simp at hct
  have hanat := calculateOrderTotal_ok db [item] c db hct
  have hitems : c.items =
      [{ productId := item.productId, name := p.name, price := p.price
       , quantity := item.quantity, lineTotal := p.price * item.quantity
       , inStock := true }] := by
    have h1 := hanat.2.1
    rw [hcl] at h1
    simpa using h1.symm
  have hsub : c.subtotal = p.price * item.quantity := by
    rw [hanat.2.2.2.1, hitems]
    simp
  refine ⟨⟨c, by rw [hdb0], hsub⟩, ?_⟩
  have hcalc2 : calculateOrderTotal db
      (({ userId := userId, items := [item], shippingAddress := addr } : CreateOrderInput).items.map
        (fun it => ({ productId := it.productId, quantity := it.quantity } : CartItem))) =
      (.ok c, db) := hct
  rcases hrun : createOrder db now { userId := userId, items := [item], shippingAddress := addr }
    with ⟨r2, db'⟩
  rcases r2 with e | order
  · exfalso
    obtain ⟨order, dbIns, hbulk, hOrd, hProdEq, hCarts, hLen, hUser, hO, hOI, hMem⟩ :=
      createOrder_decrement_failure db now _ c e db' hcalc2 hrun
    have hbulk2 : bulkUpdateInventory dbIns
        [({ productId := item.productId, quantity := item.quantity
          , operation := .decrement } : InvUpdate)] = (.error e, db') := hbulk
    have hpIns : getProductRec dbIns item.productId = some p := by
      unfold getProductRec
      rw [hProdEq]
      exact hp
    obtain ⟨hequ, hfind⟩ :=
      (updateInventory_decrement_spec dbIns item.productId item.quantity p hpIns).2 (by omega)
    rw [bulkUpdateInventory_cons_ok dbIns _ [] _ _ hequ] at hbulk2
    simp [bulkUpdateInventory] at hbulk2
  · obtain ⟨dbIns, ps, hbulk, hProdEq, hOrd, hCarts⟩ :=
      createOrder_success_inv db now _ c order db' hcalc2 hrun
    have hbulk2 : bulkUpdateInventory dbIns
        [({ productId := item.productId, quantity := item.quantity
          , operation := .decrement } : InvUpdate)] = (.ok ps, db') := hbulk
    have hpIns : getProductRec dbIns item.productId = some p := by
      unfold getProductRec
      rw [hProdEq]
      exact hp
    obtain ⟨hequ, hfind⟩ :=
      (updateInventory_decrement_spec dbIns item.productId item.quantity p hpIns).2 (by omega)
    rw [bulkUpdateInventory_cons_ok dbIns _ [] _ _ hequ] at hbulk2
    simp [bulkUpdateInventory] at hbulk2
    obtain ⟨hps, hdb2⟩ := hbulk2
    refine ⟨order, db', rfl, ?_, ?_⟩
    · rw [← hdb2]
      show order ∈ (putProduct dbIns item.productId
        { p with stock := p.stock - item.quantity }).orders
      rw [show (putProduct dbIns item.productId
            { p with stock := p.stock - item.quantity }).orders = dbIns.orders from rfl
        , hOrd]
      simp
    · rw [← hdb2]
      exact hfind

/-- Witness for C10: a soft-deleted Gadget (stock 5) is ordered (quantity 2):
the calculation and the order succeed and stock drops to 3. -/
theorem claim_soft_deleted_orderable_witness :
    (calculateOrderTotal dbInactive [{ productId := "p2", quantity := 2 }]).fst.isOk = true ∧
    (createOrder dbInactive 0
      { userId := "u1", items := [{ productId := "p2", quantity := 2 }]
      , shippingAddress := addr0 }).fst.isOk = true ∧
    getProductRec (createOrder dbInactive 0
      { userId := "u1", items := [{ productId := "p2", quantity := 2 }]
      , shippingAddress := addr0 }).snd "p2" =
      some { id := "p2", name := "Gadget", price := 100, stock := 3, isActive := false } := by
  obtain ⟨⟨c, hct, hsub⟩, ⟨order, db', hrun, hmem, hfind⟩⟩ :=
    claim_soft_deleted_orderable dbInactive 0 "u1" addr0
      { productId := "p2", quantity := 2 } pInactive rfl rfl (by decide)
  refine ⟨?_, ?_, ?_⟩
  · rw [hct]
    rfl
  · rw [hrun]
    rfl
  · rw [hrun]
    exact hfind

/-- `createOrder` never touches the `carts` collection, whatever its
outcome. -/
theorem createOrder_carts (db : DB) (now : Int) (input : CreateOrderInput)
    (r : Except String Order) (db' : DB)
    (h : createOrder db now input = (r, db')) : db'.carts = db.carts := by
  unfold createOrder at h
  split at h
  · next e db0 heq =>
      have hst : db0 = db := by
        have hs := calculateOrderTotal_state db (input.items.map (fun item =>
          ({ productId := item.productId, quantity := item.quantity } : CartItem)))
        rw [heq] at hs
        exact hs
      simp only [Prod.mk.injEq] at h
      rw [← h.2, hst]
  · next calculation db0 heq =>
      have hst : db0 = db := by
        have hs := calculateOrderTotal_state db (input.items.map (fun item =>
          ({ productId := item.productId, quantity := item.quantity } : CartItem)))
        rw [heq] at hs
        exact hs
      subst hst
      split at h
      next rid db1 heqF =>
        dsimp only [] at h
        unfold freshId at heqF
        simp only [Prod.mk.injEq] at heqF
        obtain ⟨hrid, hdb1⟩ := heqF
        subst hdb1
        split at h
        · next e2 db4 heq2 =>
            simp only [Prod.mk.injEq] at h
            rw [← h.2]
            rw [(bulkUpdateInventory_preserves_eq _ _ _ _ heq2).2.2
              , (insertOrderItemRows_preserves _ _ _).2.2.1]
        · next ps db4 heq2 =>
            simp only [Prod.mk.injEq] at h
            rw [← h.2]
            rw [(bulkUpdateInventory_preserves_eq _ _ _ _ heq2).2.2
              , (insertOrderItemRows_preserves _ _ _).2.2.1]

/-- C8: `checkout` on an empty cart fails with the empty-cart error and
returns the state untouched; on a non-empty cart it delegates to
`createOrder` — if that fails, the error propagates and the cart rows are
unchanged (the clear never ran); if it succeeds, the cart is cleared only
then. -/
theorem claim_checkout_cart_safety :
    (∀ (db : DB) (now : Int) (userId : String) (addr : Address),
        getCart db userId = [] →
        checkout db now userId addr = (.error "Cart is empty", db)) ∧
    (∀ (db : DB) (now : Int) (userId : String) (addr : Address) (e : String) (db1 : DB),
        getCart db userId ≠ [] →
        createOrder db now
          { userId := userId
          , items := (getCart db userId).map (fun item =>
              ({ productId := item.productId, quantity := item.quantity } : CartItem))
          , shippingAddress := addr } = (.error e, db1) →
        checkout db now userId addr = (.error e, db1) ∧ db1.carts = db.carts) ∧
    (∀ (db : DB) (now : Int) (userId : String) (addr : Address) (order : Order) (db1 : DB),
        getCart db userId ≠ [] →
        createOrder db now
          { userId := userId
          , items := (getCart db userId).map (fun item =>
              ({ productId := item.productId, quantity := item.quantity } : CartItem))
          , shippingAddress := addr } = (.ok order, db1) →
        checkout db now userId addr = (.ok order, clearCart db1 userId)) := by
  refine ⟨?_, ?_, ?_⟩
  · intro db now userId addr hempty
    unfold checkout
    rw [hempty]
    rfl
  · intro db now userId addr e db1 hne hco
    have hlen : ¬ ((getCart db userId).length = 0) := by
      simpa [List.length_eq_zero] using hne
    refine ⟨?_, createOrder_carts _ _ _ _ _ hco⟩
    unfold checkout
    dsimp only []
    rw [if_neg hlen, hco]
  · intro db now userId addr order db1 hne hco
    have hlen : ¬ ((getCart db userId).length = 0) := by
      simpa [List.length_eq_zero] using hne
    unfold checkout
    dsimp only []
    rw [if_neg hlen, hco]

/-- Witness for C8: checkout on an empty cart fails and leaves the state
unchanged; checkout of a cart asking for 7 of a 5-stock Widget propagates the
out-of-stock failure and leaves the cart row in place. -/
theorem claim_checkout_cart_safety_witness :
    checkout dbEmpty 0 "u1" addr0 = (.error "Cart is empty", dbEmpty) ∧
    (checkout dbC8 0 "u1" addr0 = (.error "Items out of stock: Widget", dbC8) ∧
      dbC8.carts = dbC8.carts) :=
  ⟨claim_checkout_cart_safety.1 dbEmpty 0 "u1" addr0 rfl,
   claim_checkout_cart_safety.2.1 dbC8 0 "u1" addr0 "Items out of stock: Widget" dbC8
     (by decide)
     (by
       simp [createOrder, calculateOrderTotal, calcLines, getProductRec, getCart
           , dbC8, wProduct]
       decide)⟩

/-- C9: starting from a state with no cart row for `(u, p)` (and no id
collision with the next fresh id), adding quantity 2 then quantity 3 yields
exactly one `(u, p)` row, with quantity 5; setting that row's quantity to 0
deletes it, so the subsequent cart read excludes `p`; and `updateCartItem`
for a pair with no row fails with the not-found error, state unchanged. -/
theorem claim_cart_roundtrip :
    (∀ (db : DB) (u p : String),
        (∀ r ∈ db.carts, (r.userId == u && r.productId == p) = false) →
        (∀ r ∈ db.carts, (r.id == "id-" ++ toString db.nextId) = false) →
        ((((addToCart (addToCart db u { productId := p, quantity := 2 }).2 u
              { productId := p, quantity := 3 }).2).carts.filter
              (fun r => r.userId == u && r.productId == p)).map (fun r => r.quantity)) = [5] ∧
        (((updateCartItem (addToCart (addToCart db u { productId := p, quantity := 2 }).2 u
              { productId := p, quantity := 3 }).2 u p 0).2).carts.filter
              (fun r => r.userId == u && r.productId == p)) = [] ∧
        (∀ it ∈ getCart ((updateCartItem (addToCart (addToCart db u
              { productId := p, quantity := 2 }).2 u
              { productId := p, quantity := 3 }).2 u p 0).2) u, it.productId ≠ p)) ∧
    (∀ (db : DB) (u p : String) (q : Int),
        db.carts.find? (fun r => r.userId == u && r.productId == p) = none →
        updateCartItem db u p q =
          (.error ("Cart item not found for product: " ++ p), db)) := by
  constructor
  · intro db u p h1 h2
    have hfind0 : db.carts.find? (fun r => r.userId == u && r.productId == p) = none := by
      rw [List.find?_eq_none]
      intro x hx
      simp [h1 x hx]
    have hs1 : (addToCart db u { productId := p, quantity := 2 }).2 =
        { db with
          nextId := db.nextId + 1,
          carts := db.carts ++
            [{ id := "id-" ++ toString db.nextId, userId := u,
               productId := p, quantity := 2 }] } := by
      simp [addToCart, hfind0, freshId]
    have hfind1 :
        (db.carts ++
            [({ id := "id-" ++ toString db.nextId, userId := u,
                productId := p, quantity := 2 } : CartRow)]).find?
          (fun r => r.userId == u && r.productId == p) =
        some { id := "id-" ++ toString db.nextId, userId := u,
               productId := p, quantity := 2 } := by
      simp only [List.find?_append, hfind0, Option.none_or]
      simp
    have hmap : db.carts.map (fun r =>
        if r.id == "id-" ++ toString db.nextId
        then ({ id := "id-" ++ toString db.nextId, userId := u,
                productId := p, quantity := 2 + 3 } : CartRow) else r) = db.carts :=
      map_if_id _ _ db.carts h2
    have hs2 : (addToCart (addToCart db u { productId := p, quantity := 2 }).2 u
          { productId := p, quantity := 3 }).2 =
        { db with
          nextId := db.nextId + 1,
          carts := db.carts ++
            [{ id := "id-" ++ toString db.nextId, userId := u,
               productId := p, quantity := 5 }] } := by
      rw [hs1]
      simp only [addToCart, hfind1]
      simp only [List.map_append, hmap, List.map_cons, List.map_nil, beq_self_eq_true,
                 if_true]
      norm_num
    have hfilter1 : db.carts.filter (fun r => r.userId == u && r.productId == p) = [] := by
      rw [List.filter_eq_nil_iff]
      intro a ha
      simp [h1 a ha]
    have hfind5 :
        (db.carts ++
            [({ id := "id-" ++ toString db.nextId, userId := u,
                productId := p, quantity := 5 } : CartRow)]).find?
          (fun r => r.userId == u && r.productId == p) =
        some { id := "id-" ++ toString db.nextId, userId := u,
               productId := p, quantity := 5 } := by
      simp only [List.find?_append, hfind0, Option.none_or]
      simp
    have hkeep : db.carts.filter (fun r =>
        r.id != "id-" ++ toString db.nextId) = db.carts := by
      rw [List.filter_eq_self]
      intro a ha
      simpa using h2 a ha
    have hs3 : (updateCartItem (addToCart (addToCart db u { productId := p, quantity := 2 }).2 u
          { productId := p, quantity := 3 }).2 u p 0).2 =
        { db with nextId := db.nextId + 1, carts := db.carts } := by
      rw [hs2]
      simp only [updateCartItem, hfind5]
      simp [List.filter_append, hkeep, List.filter_cons, List.filter_nil]
    refine ⟨?_, ?_, ?_⟩
    · rw [hs2]
      simp only [List.filter_append, hfilter1, List.filter_cons, List.filter_nil]
      simp
    · rw [hs3]
      simpa using hfilter1
    · intro it hit
      rw [hs3] at hit
      unfold getCart at hit
      simp only [List.mem_map, List.mem_filter] at hit
      obtain ⟨r, ⟨hr, hru⟩, hproj⟩ := hit
      have hrp : (r.productId == p) = false := by
        have hh := h1 r hr
        rwa [hru, Bool.true_and] at hh
      rw [← hproj]
      simpa using hrp
  · intro db u p q hnone
    simp only [updateCartItem, hnone]

/-- Witness for C9: the round trip on an initially empty cart collection for
user `u1` and product `p1`, plus the not-found failure on the empty state. -/
theorem claim_cart_roundtrip_witness :
    ((((addToCart (addToCart dbEmpty "u1" { productId := "p1", quantity := 2 }).2 "u1"
          { productId := "p1", quantity := 3 }).2).carts.filter
          (fun r => r.userId == "u1" && r.productId == "p1")).map (fun r => r.quantity)) = [5] ∧
    (((updateCartItem (addToCart (addToCart dbEmpty "u1"
          { productId := "p1", quantity := 2 }).2 "u1"
          { productId := "p1", quantity := 3 }).2 "u1" "p1" 0).2).carts.filter
          (fun r => r.userId == "u1" && r.productId == "p1")) = [] ∧
    updateCartItem dbEmpty "u1" "p1" 4 =
      (.error ("Cart item not found for product: " ++ "p1"), dbEmpty) := by
  obtain ⟨hA, hB, hC⟩ :=
    claim_cart_roundtrip.1 dbEmpty "u1" "p1" (by simp [dbEmpty]) (by simp [dbEmpty])
  exact ⟨hA, hB, claim_cart_roundtrip.2 dbEmpty "u1" "p1" 4 rfl⟩

/-- C6: `getPeriodStart` is a fixed point on its own output, so the code's
`previousPeriodStart = getPeriodStart(periodStart)` equals `periodStart` and
the previous window `[previousPeriodStart, periodStart)` is empty: with a
total-100 order yesterday and a total-200 order today, the day-period stats
report the current window correctly but both trends are 0, where the claimed
equal-length prior window would give trend.revenue = 100. -/
theorem claim_revenue_trend_dead :
    getPeriodStart (getPeriodStart nowC6 .day) .day = getPeriodStart nowC6 .day ∧
    (getRevenueStats dbC6 nowC6 .day).totalRevenue = 200 ∧
    (getRevenueStats dbC6 nowC6 .day).totalOrders = 1 ∧
    (getRevenueStats dbC6 nowC6 .day).trend.revenue = 0 ∧
    (getRevenueStats dbC6 nowC6 .day).trend.orders = 0 := by
  have hps : getPeriodStart nowC6 .day = 1728000000000 := by decide
  have hps2 : getPeriodStart 1728000000000 .day = 1728000000000 := by decide
  refine ⟨by decide, ?_, ?_, ?_, ?_⟩ <;>
    simp [getRevenueStats, hps, hps2, dbC6, oYesterday, oToday, jsRound_zero]

end VlibeBase
